import Mathlib

/-!
# Homage: the player state

A shallow embedding of `Source/unrealgame/HomagePlayerState.h`, the header that
declares the class `AHomagePlayerState`:

```
UCLASS()
class UNREALGAME_API AHomagePlayerState : public APlayerState
{
	GENERATED_BODY()

	UPROPERTY(Replicated)
	uint8 TeamNumber;
};
```

The header declares data only: one class, one base class, one field. The
embedding is therefore a data model, and the theorems are about the values a
player state can take.
-/

namespace Homage

/-- The C++ type `uint8` of the field `TeamNumber` (the engine's name for
`unsigned char`, eight value bits): a natural number below `2 ^ 8`. -/
structure uint8 where
  /-- The number the eight bits stand for. -/
  toNat : Nat
  /-- Eight bits hold no number from `2 ^ 8` on. -/
  toNat_lt : toNat < 2 ^ 8

/-- Modelled from the spec: the per-instance data that the macro
`GENERATED_BODY()` adds to the class. The macro expands to what
`HomagePlayerState.generated.h` defines, and that header is produced by the
engine's build tool and is not part of the source tree. The data model of the
specification gives `TeamNumber` as the only attribute beyond the inherited base
state, so the macro adds no attribute: a record without fields. -/
structure GENERATED_BODY where

/-- The class `AHomagePlayerState`, line by line: the base class sub-object, the
expansion of `GENERATED_BODY()`, and the field `uint8 TeamNumber`.

The base class `APlayerState` is declared in the engine header
`GameFramework/PlayerState.h`, outside the source tree; its state is the type
parameter `APlayerState`, about which nothing is assumed.

`UPROPERTY(Replicated)` marks the field for the engine's networking layer and
does not change the type or the values of the field. -/
structure AHomagePlayerState (APlayerState : Type) where
  /-- The inherited part, `: public APlayerState`. -/
  toAPlayerState : APlayerState
  /-- The expansion of `GENERATED_BODY()`. -/
  generatedBody : GENERATED_BODY
  /-- The field `uint8 TeamNumber`. -/
  TeamNumber : uint8

/-- Two bytes that stand for the same number are the same byte. -/
theorem uint8.eq_of_toNat_eq (x y : uint8) (h : x.toNat = y.toNat) : x = y := by
  cases x
  cases y
  cases h
  rfl

/-- C1. Whatever the inherited base state, the numbers that `TeamNumber` holds
over all player states with that base state are exactly the integers from 0 to
255: each stored value lies in that range, and each integer of the range is
stored in some player state. -/
theorem TeamNumber_values (APlayerState : Type) (base : APlayerState) :
    {z : Int | ∃ s : AHomagePlayerState APlayerState,
        s.toAPlayerState = base ∧ (s.TeamNumber.toNat : Int) = z}
      = {z : Int | 0 ≤ z ∧ z ≤ 255} := by
  ext z
  simp only [Set.mem_setOf_eq]
  constructor
  · rintro ⟨s, -, hz⟩
    have hlt := s.TeamNumber.toNat_lt
    omega
  · rintro ⟨h0, h255⟩
    refine ⟨⟨base, ⟨⟩, ⟨z.toNat, by omega⟩⟩, rfl, ?_⟩
    show ((z.toNat : Nat) : Int) = z
    omega

/-- C2. A player state is determined by its inherited base state together with
its `TeamNumber`: two player states with equal base states and equal team
numbers are equal. -/
theorem AHomagePlayerState_determined (APlayerState : Type)
    (a b : AHomagePlayerState APlayerState)
    (hbase : a.toAPlayerState = b.toAPlayerState)
    (hteam : a.TeamNumber.toNat = b.TeamNumber.toNat) : a = b := by
  obtain ⟨abase, ⟨⟩, ateam⟩ := a
  obtain ⟨bbase, ⟨⟩, bteam⟩ := b
  have hbyte : ateam = bteam := uint8.eq_of_toNat_eq ateam bteam hteam
  cases hbase
  cases hbyte
  rfl

/-- The determination theorem at a concrete input: base state 5 and team 7, the
bound of the team number proved in two different ways. -/
theorem AHomagePlayerState_determined_witness :
    (AHomagePlayerState.mk 5 GENERATED_BODY.mk (uint8.mk 7 (by decide))
        : AHomagePlayerState Nat).toAPlayerState
      = (AHomagePlayerState.mk 5 GENERATED_BODY.mk (uint8.mk 7 (by norm_num))
        : AHomagePlayerState Nat).toAPlayerState
    ∧ (AHomagePlayerState.mk 5 GENERATED_BODY.mk (uint8.mk 7 (by decide))
        : AHomagePlayerState Nat).TeamNumber.toNat
      = (AHomagePlayerState.mk 5 GENERATED_BODY.mk (uint8.mk 7 (by norm_num))
        : AHomagePlayerState Nat).TeamNumber.toNat
    ∧ (AHomagePlayerState.mk 5 GENERATED_BODY.mk (uint8.mk 7 (by decide))
        : AHomagePlayerState Nat)
      = AHomagePlayerState.mk 5 GENERATED_BODY.mk (uint8.mk 7 (by norm_num)) :=
  ⟨rfl, rfl, AHomagePlayerState_determined Nat _ _ rfl rfl⟩

end Homage
